import Mathlib

/-!
Shallow embedding of the evaluation logic of
`mani_skill2/envs/custom_scenes/put_on_in_scene.py`
(`PutOnInSceneEnv.reset`, `PutOnInSceneEnv._initialize_episode_stats`,
`PutOnInSceneEnv.evaluate`, `PutOnBridgeInSceneEnv.reset`).

Machine floats are idealised as real numbers; Python booleans obtained by
comparing reals become `Prop`s.  Scene state that the evaluator only reads
(poses, bounding boxes, contacts, grasp detection) is packaged as an explicit
input record, and the mutable members `self.consecutive_grasp` and
`self.episode_stats` as an explicit state record threaded through `evaluate`.
-/

noncomputable section

namespace PutOnInScene

/-- A 3-d vector (numpy array of length 3). -/
structure Vec3 where
  x : ℝ
  y : ℝ
  z : ℝ

/-- Componentwise subtraction `a - b` (numpy vector subtraction). -/
def vsub (a b : Vec3) : Vec3 := ⟨a.x - b.x, a.y - b.y, a.z - b.z⟩

/-- Componentwise halving `v / 2` (numpy division by the scalar 2). -/
def halfVec (v : Vec3) : Vec3 := ⟨v.x / 2, v.y / 2, v.z / 2⟩

/-- Componentwise addition `a + b` (numpy vector addition). -/
def vadd (a b : Vec3) : Vec3 := ⟨a.x + b.x, a.y + b.y, a.z + b.z⟩

/-- Euclidean norm of the xy components, `np.linalg.norm(v[:2])`. -/
def normXY (v : Vec3) : ℝ := Real.sqrt (v.x ^ 2 + v.y ^ 2)

/-- Euclidean norm of a 3-d vector, `np.linalg.norm(v)`. -/
def norm3 (v : Vec3) : ℝ := Real.sqrt (v.x ^ 2 + v.y ^ 2 + v.z ^ 2)

/-- Planar distance `np.linalg.norm(a[:2] - b[:2])`: xy Euclidean distance. -/
def xyDist (a b : Vec3) : ℝ := normXY (vsub a b)

/-- Line 68: `xy_flag = np.linalg.norm(offset[:2]) <= np.linalg.norm(tgt_obj_half_length_bbox[:2]) - 0.005`. -/
def xyFlag (offset tgtHalf : Vec3) : Prop :=
  normXY offset ≤ normXY tgtHalf - 0.005

/-- Line 71: `z_flag = (offset[2] > 0) and (offset[2] - tgt_obj_half_length_bbox[2] - src_obj_half_length_bbox[2] <= 0.02)`. -/
def zFlag (offset tgtHalf srcHalf : Vec3) : Prop :=
  offset.z > 0 ∧ offset.z - tgtHalf.z - srcHalf.z ≤ 0.02

/-- The bounding-box based placement test of `evaluate` (lines 62-72):
half-lengths are the frame-0 world bboxes divided by 2, `offset = pos_src - pos_tgt`,
result `src_on_target = xy_flag and z_flag`. -/
def srcOnTargetPos (posSrc posTgt tgtBboxWorld srcBboxWorld : Vec3) : Prop :=
  xyFlag (vsub posSrc posTgt) (halfVec tgtBboxWorld) ∧
    zFlag (vsub posSrc posTgt) (halfVec tgtBboxWorld) (halfVec srcBboxWorld)

/-- One tracked scene object, as `evaluate` reads it: its `name`, the current
position `obj.pose.p`, and its entry of `episode_obj_xyzs_after_settle`
(the zip of lines 46-49 is modelled by pairing the two lists into one record). -/
structure ObjState where
  name : String
  poseP : Vec3
  xyzAfterSettle : Vec3

/-- The list `other_obj_xy_move_dist` (lines 45-49): for every episode object
whose name differs from the name of the source object, the xy distance between its
settle position and its current position. -/
def otherObjXYMoveDist (srcName : String) (objs : List ObjState) : List ℝ :=
  (objs.filter fun o => o.name ≠ srcName).map fun o => xyDist o.xyzAfterSettle o.poseP

/-- Line 50: `moved_correct_obj = (source_obj_xy_move_dist > 0.03) and (all([x < source_obj_xy_move_dist for x in other_obj_xy_move_dist]))` (line 50). -/
def movedCorrectObj (sDist : ℝ) (others : List ℝ) : Prop :=
  sDist > 0.03 ∧ ∀ d ∈ others, d < sDist

/-- Line 51: `moved_wrong_obj = any([x > 0.03 for x in other_obj_xy_move_dist]) and any([x > source_obj_xy_move_dist for x in other_obj_xy_move_dist])` (line 51). -/
def movedWrongObj (sDist : ℝ) (others : List ℝ) : Prop :=
  (∃ d ∈ others, d > 0.03) ∧ (∃ d ∈ others, d > sDist)

/-- The grasp-counter transition (lines 55-58): increment on a grasped step,
reset to 0 otherwise. -/
def stepGraspCounter (counter : ℕ) (grasped : Bool) : ℕ :=
  if grasped then counter + 1 else 0

/-- Line 59: `consecutive_grasp = (self.consecutive_grasp >= 5)`. -/
def consecutiveGraspFlag (counter : ℕ) : Prop :=
  counter ≥ 5

/-- A contact point: `point.impulse` is a 3-d impulse vector. -/
structure ContactPoint where
  impulse : Vec3

/-- A contact record: two actors and a list of contact points. -/
structure Contact where
  actor0 : String
  actor1 : String
  points : List ContactPoint

/-- Line 89: `contact_impulse = np.sum([point.impulse for point in contact.points], axis=0)`:
componentwise sum of the impulses of the points. -/
def sumImpulse (ps : List ContactPoint) : Vec3 :=
  ps.foldl (fun acc p => vadd acc p.impulse) ⟨0, 0, 0⟩

/-- Lines 82-86, `other_obj_contact_actor_name`: the name of the other party
when one of the two actors of the contact is the source object, else `None`. -/
def otherContactActorName (srcName : String) (c : Contact) : Option String :=
  if c.actor0 = srcName then some c.actor1
  else if c.actor1 = srcName then some c.actor0
  else none

/-- The condition of line 90 that makes a single contact disqualify placement:
the contact touches the source object, the name of the other party is not among
`ignore_actor_names`, and the summed impulse magnitude exceeds `1e-6`. -/
def contactVetoes (srcName : String) (ignoreActorNames : List String) (c : Contact) : Prop :=
  match otherContactActorName srcName c with
  | none => False
  | some n => n ∉ ignoreActorNames ∧ norm3 (sumImpulse c.points) > 1e-6

/-- The contact loop of lines 76-93: `flag` starts `True` and the scan of the
contact list sets it `False` (and breaks) at the first disqualifying contact. -/
def contactFlag (srcName : String) (ignoreActorNames : List String) : List Contact → Prop
  | [] => True
  | c :: rest =>
      ¬ contactVetoes srcName ignoreActorNames c ∧ contactFlag srcName ignoreActorNames rest

/-- The record `self.episode_stats` (an `OrderedDict` with five boolean entries). -/
structure EpisodeStats where
  moved_correct_obj : Prop
  moved_wrong_obj : Prop
  is_src_obj_grasped : Prop
  consecutive_grasp : Prop
  src_on_target : Prop

/-- The mutable members of the environment that `evaluate` touches:
`self.consecutive_grasp` (the integer counter) and `self.episode_stats`. -/
structure EnvState where
  consecutiveGrasp : ℕ
  episodeStats : EpisodeStats

/-- Everything `evaluate` reads from the scene: poses, names, settle baselines,
the grasp check, frame-0 world bounding boxes, contacts, and robot link names. -/
structure EvalInput where
  sourceObjPoseP : Vec3
  targetObjPoseP : Vec3
  episodeSourceObjName : String
  episodeTargetObjName : String
  episodeSourceObjXyzAfterSettle : Vec3
  episodeObjs : List ObjState
  checkGrasp : Bool
  episodeTargetObjBboxWorld : Vec3
  episodeSourceObjBboxWorld : Vec3
  contacts : List Contact
  robotLinkNames : List String

/-- The dictionary returned by `evaluate` (lines 104-112). -/
structure EvalResult where
  moved_correct_obj : Prop
  moved_wrong_obj : Prop
  is_src_obj_grasped : Prop
  consecutive_grasp : Prop
  src_on_target : Prop
  episode_stats : EpisodeStats
  success : Prop

/-- Method `PutOnInSceneEnv.evaluate` (lines 39-112), as a pure function from the
mutable state and the scene inputs to the updated state and the returned
dictionary, following the source line by line. -/
def evaluate (st : EnvState) (inp : EvalInput) : EnvState × EvalResult :=
  let source_obj_xy_move_dist :=
    xyDist inp.episodeSourceObjXyzAfterSettle inp.sourceObjPoseP
  let other_obj_xy_move_dist :=
    otherObjXYMoveDist inp.episodeSourceObjName inp.episodeObjs
  let moved_correct_obj := movedCorrectObj source_obj_xy_move_dist other_obj_xy_move_dist
  let moved_wrong_obj := movedWrongObj source_obj_xy_move_dist other_obj_xy_move_dist
  let is_src_obj_grasped := inp.checkGrasp
  let consecutiveGrasp := stepGraspCounter st.consecutiveGrasp is_src_obj_grasped
  let consecutive_grasp := consecutiveGraspFlag consecutiveGrasp
  let src_on_target_pos :=
    srcOnTargetPos inp.sourceObjPoseP inp.targetObjPoseP
      inp.episodeTargetObjBboxWorld inp.episodeSourceObjBboxWorld
  let ignore_actor_names := inp.episodeTargetObjName :: inp.robotLinkNames
  let flag := contactFlag inp.episodeSourceObjName ignore_actor_names inp.contacts
  let src_on_target := src_on_target_pos ∧ flag
  let success := src_on_target
  let stats : EpisodeStats :=
    { moved_correct_obj := moved_correct_obj
      moved_wrong_obj := moved_wrong_obj
      src_on_target := src_on_target
      is_src_obj_grasped := st.episodeStats.is_src_obj_grasped ∨ is_src_obj_grasped = true
      consecutive_grasp := st.episodeStats.consecutive_grasp ∨ consecutive_grasp }
  ({ consecutiveGrasp := consecutiveGrasp, episodeStats := stats },
   { moved_correct_obj := moved_correct_obj
     moved_wrong_obj := moved_wrong_obj
     is_src_obj_grasped := is_src_obj_grasped = true
     consecutive_grasp := consecutive_grasp
     src_on_target := src_on_target
     episode_stats := stats
     success := success })

/-- Method `PutOnInSceneEnv._initialize_episode_stats` (lines 20-27): all five
entries start `False`. -/
def initializeEpisodeStats : EpisodeStats :=
  { moved_correct_obj := False
    moved_wrong_obj := False
    is_src_obj_grasped := False
    consecutive_grasp := False
    src_on_target := False }

/-- Modelled from the spec: `super().reset(...)` in `PutOnInSceneEnv.reset`
resolves to `MoveNearInSceneEnv.reset` (file `move_near_in_scene.py`, which is
not part of this source tree).  The spec states that episode reset
reinitialises the statistics record (`reset_episode()` reinitializes
statistics and counter; `initialize()` sets all five fields to `false`; the
statistics are owned exclusively by the current episode and must be
reinitialized at every reset).  We model the superclass reset as installing
the freshly initialised statistics. -/
def superReset (st : EnvState) : EnvState :=
  { st with episodeStats := initializeEpisodeStats }

/-- Method `PutOnInSceneEnv.reset` (lines 16-18): set `self.consecutive_grasp = 0`,
then call `super().reset`. -/
def reset (st : EnvState) : EnvState :=
  superReset { st with consecutiveGrasp := 0 }

/-- Iterating the grasp-counter transition of lines 55-58 over a sequence of
per-step grasp detections. -/
def runGraspCounter (counter : ℕ) (grasps : List Bool) : ℕ :=
  grasps.foldl stepGraspCounter counter

/-- A concrete evaluation input realising the displacement scenario of the
spec: the source spoon settled at the origin and currently at `(0.05, 0, 0)`
(a 5 cm move), the target cloth unmoved, no other objects, no contacts. -/
def stepMovedInput : EvalInput where
  sourceObjPoseP := ⟨0.05, 0, 0⟩
  targetObjPoseP := ⟨-0.1, 0, 0⟩
  episodeSourceObjName := "bridge_spoon_generated_modified"
  episodeTargetObjName := "table_cloth_generated"
  episodeSourceObjXyzAfterSettle := ⟨0, 0, 0⟩
  episodeObjs :=
    [⟨"bridge_spoon_generated_modified", ⟨0.05, 0, 0⟩, ⟨0, 0, 0⟩⟩,
     ⟨"table_cloth_generated", ⟨-0.1, 0, 0⟩, ⟨-0.1, 0, 0⟩⟩]
  checkGrasp := false
  episodeTargetObjBboxWorld := ⟨0.06, 0.08, 0.02⟩
  episodeSourceObjBboxWorld := ⟨0.02, 0.02, 0.02⟩
  contacts := []
  robotLinkNames := []

/-- A concrete evaluation input in which nothing has moved: the source sits at
its settle position, which is also the target position (so the placement
offset is all zero). -/
def stepUnmovedInput : EvalInput where
  sourceObjPoseP := ⟨0, 0, 0⟩
  targetObjPoseP := ⟨0, 0, 0⟩
  episodeSourceObjName := "bridge_spoon_generated_modified"
  episodeTargetObjName := "table_cloth_generated"
  episodeSourceObjXyzAfterSettle := ⟨0, 0, 0⟩
  episodeObjs :=
    [⟨"bridge_spoon_generated_modified", ⟨0, 0, 0⟩, ⟨0, 0, 0⟩⟩,
     ⟨"table_cloth_generated", ⟨-0.1, 0, 0⟩, ⟨-0.1, 0, 0⟩⟩]
  checkGrasp := false
  episodeTargetObjBboxWorld := ⟨0.06, 0.08, 0.02⟩
  episodeSourceObjBboxWorld := ⟨0.02, 0.02, 0.02⟩
  contacts := []
  robotLinkNames := []

/-- A concrete evaluation input realising the success scenario of the spec:
the source directly above the target, xy offset `0`, z offset `0.03`, target
and source half-extents `0.01` in z (bbox `0.02`), no contacts. -/
def successScenarioInput : EvalInput where
  sourceObjPoseP := ⟨0, 0, 0.03⟩
  targetObjPoseP := ⟨0, 0, 0⟩
  episodeSourceObjName := "green_cube_3cm"
  episodeTargetObjName := "yellow_cube_3cm"
  episodeSourceObjXyzAfterSettle := ⟨0, 0, 0.03⟩
  episodeObjs :=
    [⟨"green_cube_3cm", ⟨0, 0, 0.03⟩, ⟨0, 0, 0.03⟩⟩,
     ⟨"yellow_cube_3cm", ⟨0, 0, 0⟩, ⟨0, 0, 0⟩⟩]
  checkGrasp := false
  episodeTargetObjBboxWorld := ⟨0.06, 0.08, 0.02⟩
  episodeSourceObjBboxWorld := ⟨0.06, 0.08, 0.02⟩
  contacts := []
  robotLinkNames := []

end PutOnInScene

namespace PutOnBridgeInScene

/-- Line 140, `episode_id = obj_init_options.get("episode_id", 0)`: the
episode id from the options dictionary, defaulting to 0 when absent. -/
def episodeId (objInitOptionsEpisodeId : Option ℕ) : ℕ :=
  objInitOptionsEpisodeId.getD 0

/-- The index into `self._xy_configs` computed by `PutOnBridgeInSceneEnv.reset`
(lines 141-143): `(episode_id % (len(xy_configs) * len(quat_configs))) // len(quat_configs)`. -/
def xyConfigIndex (numXYConfigs numQuatConfigs e : ℕ) : ℕ :=
  (e % (numXYConfigs * numQuatConfigs)) / numQuatConfigs

/-- The index into `self._quat_configs` computed by `PutOnBridgeInSceneEnv.reset`
(lines 144-146): `episode_id % len(quat_configs)`. -/
def quatConfigIndex (numQuatConfigs e : ℕ) : ℕ :=
  e % numQuatConfigs

/-- The `(xy_config, quat_config)` pair selected by `PutOnBridgeInSceneEnv.reset`
for a given episode id (Python list indexing is modelled by `List.get?`). -/
def selectConfigs {α β : Type} (xyConfigs : List α) (quatConfigs : List β) (e : ℕ) :
    Option α × Option β :=
  (xyConfigs.get? (xyConfigIndex xyConfigs.length quatConfigs.length e),
   quatConfigs.get? (quatConfigIndex quatConfigs.length e))

end PutOnBridgeInScene

open PutOnInScene

/-- Evaluation helper: a square root is a given nonnegative value when the
radicand is its square. -/
theorem sqrt_eval {a b : ℝ} (hb : 0 ≤ b) (h : a = b ^ 2) : Real.sqrt a = b := by
  rw [h, Real.sqrt_sq hb]

/-- Halving the componentwise double of a vector gives the vector back. -/
theorem halfVec_vadd_self (v : Vec3) : halfVec (vadd v v) = v := by
  cases v
  simp only [halfVec, vadd, Vec3.mk.injEq]
  refine ⟨by ring, by ring, by ring⟩

/-- Unfolding lemma for the single-contact disqualification condition. -/
theorem contactVetoes_iff (srcName : String) (ignore : List String) (c : Contact) :
    contactVetoes srcName ignore c ↔
      ∃ n, otherContactActorName srcName c = some n ∧ n ∉ ignore ∧
        norm3 (sumImpulse c.points) > 1e-6 := by
  unfold contactVetoes
  cases h : otherContactActorName srcName c <;> simp [h]

/-- The contact scan passes exactly when no contact in the list disqualifies. -/
theorem contactFlag_iff (srcName : String) (ignore : List String) (cs : List Contact) :
    contactFlag srcName ignore cs ↔ ∀ c ∈ cs, ¬ contactVetoes srcName ignore c := by
  induction cs with
  | nil => simp [contactFlag]
  | cons c rest ih => simp [contactFlag, ih]

/-- Running the grasp counter over consecutive affirmative detections adds
their number to the counter. -/
theorem runGraspCounter_replicate_true (counter k : ℕ) :
    runGraspCounter counter (List.replicate k true) = counter + k := by
  induction k generalizing counter with
  | zero => simp [runGraspCounter]
  | succ n ih =>
      rw [List.replicate_succ]
      show runGraspCounter (stepGraspCounter counter true) (List.replicate n true) = counter + (n + 1)
      rw [ih]
      simp [stepGraspCounter]
      omega

/-- Claim C6: starting from a freshly reset counter, a grasped step increments
the consecutive-grasp counter by exactly 1 and a non-grasped step resets it to
exactly 0 (so `k` consecutive grasped steps from 0 leave the counter at `k`),
and the derived `consecutive_grasp` flag holds exactly when the counter is at
least 5 (it fails for every value 0 through 4).  The counter update performed
by `evaluate` is exactly this transition. -/
theorem grasp_counter_spec :
    (∀ (st : EnvState) (inp : EvalInput),
        (evaluate st inp).1.consecutiveGrasp =
          stepGraspCounter st.consecutiveGrasp inp.checkGrasp) ∧
    (∀ c : ℕ, stepGraspCounter c true = c + 1) ∧
    (∀ c : ℕ, stepGraspCounter c false = 0) ∧
    (∀ k : ℕ, runGraspCounter 0 (List.replicate k true) = k) ∧
    (∀ (st : EnvState) (inp : EvalInput),
        (evaluate st inp).2.consecutive_grasp ↔
          consecutiveGraspFlag (stepGraspCounter st.consecutiveGrasp inp.checkGrasp)) ∧
    (∀ c : ℕ, consecutiveGraspFlag c ↔ 5 ≤ c) ∧
    (∀ c : ℕ, c < 5 → ¬ consecutiveGraspFlag c) := by
  refine ⟨fun st inp => rfl, fun c => rfl, fun c => rfl, ?_, fun st inp => Iff.rfl,
    fun c => Iff.rfl, ?_⟩
  · intro k
    rw [runGraspCounter_replicate_true]
    omega
  · intro c hc
    unfold consecutiveGraspFlag
    omega

/-- Witness for C6 at concrete inputs: three consecutive grasped steps from 0
give counter 3, and the flag fails at counter 4. -/
theorem grasp_counter_spec_witness :
    runGraspCounter 0 (List.replicate 3 true) = 3 ∧ ¬ consecutiveGraspFlag 4 :=
  ⟨grasp_counter_spec.2.2.2.1 3, grasp_counter_spec.2.2.2.2.2.2 4 (by norm_num)⟩

/-- Claim C2: the spatial placement test is the conjunction of `xy_flag` and
`z_flag`; with half-extents `tgtHalf`/`srcHalf` (the frame-0 world bounding
boxes are their doubles), `xy_flag` holds exactly when the planar norm of
`offset = pos_src - pos_tgt` is at most the planar norm of the target
half-extent minus 0.005, and `z_flag` exactly when `offset.z > 0` and
`offset.z - tgtHalf.z - srcHalf.z ≤ 0.02`.  In particular `offset.z = 0.05`
with half-extents 0.015 and 0.01 falsifies `z_flag`, `offset.z = 0.04`
satisfies it, and any `offset.z ≤ 0` falsifies it. -/
theorem spatial_placement_test_spec :
    (∀ posSrc posTgt tgtHalf srcHalf : Vec3,
        srcOnTargetPos posSrc posTgt (vadd tgtHalf tgtHalf) (vadd srcHalf srcHalf) ↔
          (normXY (vsub posSrc posTgt) ≤ normXY tgtHalf - 0.005 ∧
            ((vsub posSrc posTgt).z > 0 ∧
              (vsub posSrc posTgt).z - tgtHalf.z - srcHalf.z ≤ 0.02))) ∧
    (¬ zFlag ⟨0, 0, 0.05⟩ ⟨0, 0, 0.015⟩ ⟨0, 0, 0.01⟩) ∧
    (zFlag ⟨0, 0, 0.04⟩ ⟨0, 0, 0.015⟩ ⟨0, 0, 0.01⟩) ∧
    (∀ offset tgtHalf srcHalf : Vec3, offset.z ≤ 0 → ¬ zFlag offset tgtHalf srcHalf) := by
  refine ⟨?_, ?_, ?_, ?_⟩
  · intro posSrc posTgt tgtHalf srcHalf
    unfold srcOnTargetPos xyFlag zFlag
    rw [halfVec_vadd_self, halfVec_vadd_self]
  · unfold zFlag
    push_neg
    intro _
    norm_num
  · unfold zFlag
    norm_num
  · intro offset tgtHalf srcHalf hz
    unfold zFlag
    push_neg
    intro h
    exact absurd h (not_lt.mpr hz)


/-- Witness for C2 at a concrete input: a zero vertical offset falsifies the
z test. -/
theorem spatial_placement_test_spec_witness :
    ¬ zFlag ⟨0, 0, 0⟩ ⟨0, 0, 0.015⟩ ⟨0, 0, 0.01⟩ :=
  spatial_placement_test_spec.2.2.2 ⟨0, 0, 0⟩ ⟨0, 0, 0.015⟩ ⟨0, 0, 0.01⟩ le_rfl

/-- Evaluation of the source displacement in the moved scenario: settled at
the origin and now at `(0.05, 0, 0)`, the xy move distance is `0.05`. -/
theorem stepMoved_srcDist :
    xyDist (⟨0, 0, 0⟩ : Vec3) ⟨0.05, 0, 0⟩ = 0.05 := by
  unfold xyDist normXY vsub
  exact sqrt_eval (by norm_num) (by norm_num)

/-- Evaluation of a zero displacement: the xy move distance of an unmoved
object is `0`. -/
theorem xyDist_self (v : Vec3) : xyDist v v = 0 := by
  unfold xyDist normXY vsub
  rw [sqrt_eval le_rfl (by ring)]

/-- The non-source displacement list of the moved scenario: only the unmoved
cloth remains after filtering out the source, at distance `0`. -/
theorem stepMoved_otherDists :
    otherObjXYMoveDist "bridge_spoon_generated_modified" stepMovedInput.episodeObjs = [0] := by
  unfold stepMovedInput otherObjXYMoveDist
  simp [List.filter, xyDist_self]

/-- Claim C4: the displacement classifier computes xy Euclidean move distances
from the settle baselines; `moved_correct_obj` holds exactly when the source
moved more than 0.03 and strictly more than every other object, and
`moved_wrong_obj` exactly when some other object moved more than 0.03 and
some other object moved strictly farther than the source.  In the concrete
scenario in which the source moved 0.05 and every other object (including the
target) is unmoved, `moved_correct_obj` holds and `moved_wrong_obj` fails. -/
theorem displacement_classifier_spec :
    (∀ (st : EnvState) (inp : EvalInput),
        ((evaluate st inp).2.moved_correct_obj ↔
          movedCorrectObj (xyDist inp.episodeSourceObjXyzAfterSettle inp.sourceObjPoseP)
            (otherObjXYMoveDist inp.episodeSourceObjName inp.episodeObjs)) ∧
        ((evaluate st inp).2.moved_wrong_obj ↔
          movedWrongObj (xyDist inp.episodeSourceObjXyzAfterSettle inp.sourceObjPoseP)
            (otherObjXYMoveDist inp.episodeSourceObjName inp.episodeObjs))) ∧
    (∀ (sDist : ℝ) (others : List ℝ),
        (movedCorrectObj sDist others ↔ sDist > 0.03 ∧ ∀ d ∈ others, d < sDist) ∧
        (movedWrongObj sDist others ↔
          (∃ d ∈ others, d > 0.03) ∧ ∃ d ∈ others, d > sDist)) ∧
    (∀ st : EnvState,
        (evaluate st stepMovedInput).2.moved_correct_obj ∧
        ¬ (evaluate st stepMovedInput).2.moved_wrong_obj) := by
  refine ⟨fun st inp => ⟨Iff.rfl, Iff.rfl⟩, fun sDist others => ⟨Iff.rfl, Iff.rfl⟩, ?_⟩
  intro st
  show movedCorrectObj (xyDist ⟨0, 0, 0⟩ ⟨0.05, 0, 0⟩)
      (otherObjXYMoveDist "bridge_spoon_generated_modified" stepMovedInput.episodeObjs) ∧
    ¬ movedWrongObj (xyDist ⟨0, 0, 0⟩ ⟨0.05, 0, 0⟩)
      (otherObjXYMoveDist "bridge_spoon_generated_modified" stepMovedInput.episodeObjs)
  rw [stepMoved_srcDist, stepMoved_otherDists]
  constructor
  · exact ⟨by norm_num, by intro d hd; simp at hd; rw [hd]; norm_num⟩
  · rintro ⟨⟨d, hd, hgt⟩, -⟩
    simp at hd
    rw [hd] at hgt
    norm_num at hgt

/-- Witness for C4 at a concrete state: the moved scenario evaluated from the
initial environment state. -/
theorem displacement_classifier_spec_witness :
    (evaluate ⟨0, initializeEpisodeStats⟩ stepMovedInput).2.moved_correct_obj ∧
    ¬ (evaluate ⟨0, initializeEpisodeStats⟩ stepMovedInput).2.moved_wrong_obj :=
  displacement_classifier_spec.2.2 ⟨0, initializeEpisodeStats⟩

/-- Counterexample to claim C5: the two displacement flags can never both hold
in the same step, because `moved_correct_obj` requires every other displacement
to be strictly below the source displacement while `moved_wrong_obj` requires
some other displacement to strictly exceed it. -/
theorem moved_flags_both_true_impossible :
    ¬ ∃ (st : EnvState) (inp : EvalInput),
        (evaluate st inp).2.moved_correct_obj ∧ (evaluate st inp).2.moved_wrong_obj := by
  rintro ⟨st, inp, ⟨-, hall⟩, -, d, hd, hgt⟩
  exact absurd (hall d hd) (not_lt.mpr (le_of_lt hgt))

/-- Claim C5 as amended: the two flags are not complementary, but only in the
both-false direction: there is an input on which both are false in the same
step, while on every input at most one of them holds. -/
theorem moved_flags_amended :
    (∀ (st : EnvState) (inp : EvalInput),
        ¬ ((evaluate st inp).2.moved_correct_obj ∧ (evaluate st inp).2.moved_wrong_obj)) ∧
    (∃ (st : EnvState) (inp : EvalInput),
        ¬ (evaluate st inp).2.moved_correct_obj ∧ ¬ (evaluate st inp).2.moved_wrong_obj) := by
  constructor
  · rintro st inp ⟨⟨-, hall⟩, -, d, hd, hgt⟩
    exact absurd (hall d hd) (not_lt.mpr (le_of_lt hgt))
  · refine ⟨⟨0, initializeEpisodeStats⟩, stepUnmovedInput, ?_, ?_⟩
    · rintro ⟨hgt, -⟩
      rw [show xyDist stepUnmovedInput.episodeSourceObjXyzAfterSettle
          stepUnmovedInput.sourceObjPoseP = 0 from xyDist_self _] at hgt
      norm_num at hgt
    · rintro ⟨⟨d, hd, hgt⟩, -⟩
      have : otherObjXYMoveDist "bridge_spoon_generated_modified"
          stepUnmovedInput.episodeObjs = [0] := by
        unfold stepUnmovedInput otherObjXYMoveDist
        simp [List.filter, xyDist_self]
      rw [show otherObjXYMoveDist stepUnmovedInput.episodeSourceObjName
          stepUnmovedInput.episodeObjs = [0] from this] at hd
      simp at hd
      rw [hd] at hgt
      norm_num at hgt

/-- Witness for the amended C5 at a concrete input: on the unmoved scenario
the two flags do not both hold. -/
theorem moved_flags_amended_witness :
    ¬ ((evaluate ⟨0, initializeEpisodeStats⟩ stepUnmovedInput).2.moved_correct_obj ∧
       (evaluate ⟨0, initializeEpisodeStats⟩ stepUnmovedInput).2.moved_wrong_obj) :=
  moved_flags_amended.1 ⟨0, initializeEpisodeStats⟩ stepUnmovedInput

/-- Claim C3: the contact interference filter fails (vetoes placement) exactly
when some contact involving the source object has the other party outside the
set consisting of the target object and the robot links and a summed impulse
magnitude strictly above `1e-6`; a contact at magnitude exactly `1e-6` never
disqualifies, a contact at `1e-6 + ε` with an outside party does, and once a
contact disqualifies the scan result is settled regardless of the remaining
contacts. -/
theorem contact_filter_spec :
    (∀ (srcName tgtName : String) (robotLinks : List String) (cs : List Contact),
        ¬ contactFlag srcName (tgtName :: robotLinks) cs ↔
          ∃ c ∈ cs, ∃ n, otherContactActorName srcName c = some n ∧
            ¬ (n = tgtName ∨ n ∈ robotLinks) ∧ norm3 (sumImpulse c.points) > 1e-6) ∧
    (∀ (srcName : String) (ignore : List String) (c : Contact),
        norm3 (sumImpulse c.points) = 1e-6 → ¬ contactVetoes srcName ignore c) ∧
    (∀ (srcName : String) (ignore : List String) (c : Contact) (n : String) (ε : ℝ),
        0 < ε → norm3 (sumImpulse c.points) = 1e-6 + ε →
        otherContactActorName srcName c = some n → n ∉ ignore →
        contactVetoes srcName ignore c) ∧
    (∀ (srcName : String) (ignore : List String) (c : Contact) (rest : List Contact),
        contactVetoes srcName ignore c →
        (contactFlag srcName ignore (c :: rest) ↔ False)) := by
  refine ⟨?_, ?_, ?_, ?_⟩
  · intro srcName tgtName robotLinks cs
    rw [contactFlag_iff]
    push_neg
    constructor
    · rintro ⟨c, hc, hv⟩
      obtain ⟨n, hn, hnin, himp⟩ := (contactVetoes_iff _ _ _).mp hv
      exact ⟨c, hc, n, hn, by simpa [List.mem_cons] using hnin, himp⟩
    · rintro ⟨c, hc, n, hn, hnin, himp⟩
      refine ⟨c, hc, (contactVetoes_iff _ _ _).mpr ⟨n, hn, ?_, himp⟩⟩
      simpa [List.mem_cons] using hnin
  · intro srcName ignore c himp hv
    obtain ⟨n, -, -, hgt⟩ := (contactVetoes_iff _ _ _).mp hv
    rw [himp] at hgt
    exact lt_irrefl _ hgt
  · intro srcName ignore c n ε hε himp hsome hnin
    refine (contactVetoes_iff _ _ _).mpr ⟨n, hsome, hnin, ?_⟩
    rw [himp]
    linarith
  · intro srcName ignore c rest hv
    constructor
    · rintro ⟨hnv, -⟩
      exact absurd hv hnv
    · exact False.elim

/-- Witness for C3 at a concrete input: a contact between the source carrot
and an unrelated actor with summed impulse magnitude `2e-6` disqualifies, so
the scan over a one-element contact list fails. -/
theorem contact_filter_spec_witness :
    ¬ contactFlag "bridge_carrot_generated" ["bridge_plate_objaverse"]
        [⟨"apple", "bridge_carrot_generated", [⟨⟨2e-6, 0, 0⟩⟩]⟩] := by
  have hv : contactVetoes "bridge_carrot_generated" ["bridge_plate_objaverse"]
      ⟨"apple", "bridge_carrot_generated", [⟨⟨2e-6, 0, 0⟩⟩]⟩ := by
    refine contact_filter_spec.2.2.1 _ _ _ "apple" 1e-6 (by norm_num) ?_ ?_ ?_
    · unfold norm3 sumImpulse vadd
      exact sqrt_eval (by norm_num) (by norm_num)
    · simp [otherContactActorName]
    · simp
  intro hflag
  exact ((contact_filter_spec.2.2.2 _ _ _ [] hv).mp hflag)

/-- Claim C7: the returned `success` equals the returned `src_on_target`, and
both are the conjunction of the bounding-box placement test and the contact
interference filter; in the concrete scenario with zero xy offset, z offset
0.03 above a target with half-extent 0.01 facing a source with half-extent
0.01 (a vertical gap of 0.01), and no contacts, `success` holds. -/
theorem success_spec :
    (∀ (st : EnvState) (inp : EvalInput),
        ((evaluate st inp).2.success ↔ (evaluate st inp).2.src_on_target) ∧
        ((evaluate st inp).2.success ↔
          (srcOnTargetPos inp.sourceObjPoseP inp.targetObjPoseP
              inp.episodeTargetObjBboxWorld inp.episodeSourceObjBboxWorld ∧
            contactFlag inp.episodeSourceObjName
              (inp.episodeTargetObjName :: inp.robotLinkNames) inp.contacts))) ∧
    (∀ st : EnvState, (evaluate st successScenarioInput).2.success) := by
  refine ⟨fun st inp => ⟨Iff.rfl, Iff.rfl⟩, ?_⟩
  intro st
  show srcOnTargetPos ⟨0, 0, 0.03⟩ ⟨0, 0, 0⟩ ⟨0.06, 0.08, 0.02⟩ ⟨0.06, 0.08, 0.02⟩ ∧
    contactFlag "green_cube_3cm" ("yellow_cube_3cm" :: []) []
  refine ⟨⟨?_, ?_, ?_⟩, trivial⟩
  · show Real.sqrt _ ≤ Real.sqrt _ - 0.005
    rw [sqrt_eval (le_refl (0 : ℝ)) (by norm_num [vsub]),
      sqrt_eval (show (0 : ℝ) ≤ 0.05 by norm_num) (by norm_num [halfVec])]
    norm_num
  · show (vsub ⟨0, 0, 0.03⟩ ⟨0, 0, 0⟩).z > 0
    norm_num [vsub]
  · show (vsub ⟨0, 0, 0.03⟩ ⟨0, 0, 0⟩).z - (halfVec ⟨0.06, 0.08, 0.02⟩).z -
      (halfVec ⟨0.06, 0.08, 0.02⟩).z ≤ 0.02
    norm_num [vsub, halfVec]

/-- Witness for C7 at a concrete state: the success scenario evaluated from
the initial environment state. -/
theorem success_spec_witness :
    (evaluate ⟨0, initializeEpisodeStats⟩ successScenarioInput).2.success :=
  success_spec.2 ⟨0, initializeEpisodeStats⟩

/-- Counterexample to claim C1: an episode whose first step moves the source
(so the per-step `moved_correct_obj` holds) and whose second step reports it
back at its settle position makes the `episode_stats` entry false again at the
second step, because lines 98-99 overwrite rather than OR-accumulate. -/
theorem stats_moved_flag_regresses :
    (evaluate ⟨0, initializeEpisodeStats⟩ stepMovedInput).2.moved_correct_obj ∧
    ¬ (evaluate (evaluate ⟨0, initializeEpisodeStats⟩ stepMovedInput).1
        stepUnmovedInput).1.episodeStats.moved_correct_obj := by
  constructor
  · show movedCorrectObj (xyDist ⟨0, 0, 0⟩ ⟨0.05, 0, 0⟩)
      (otherObjXYMoveDist "bridge_spoon_generated_modified" stepMovedInput.episodeObjs)
    rw [stepMoved_srcDist, stepMoved_otherDists]
    exact ⟨by norm_num, by intro d hd; simp at hd; rw [hd]; norm_num⟩
  · show ¬ movedCorrectObj (xyDist ⟨0, 0, 0⟩ ⟨0, 0, 0⟩)
      (otherObjXYMoveDist "bridge_spoon_generated_modified" stepUnmovedInput.episodeObjs)
    rintro ⟨hgt, -⟩
    rw [xyDist_self] at hgt
    norm_num at hgt

/-- Claim C1 as amended: the `episode_stats` entries for `moved_correct_obj`
and `moved_wrong_obj` are overwritten at every step with the instantaneous
per-step values (independently of their previous values); they are not
OR-accumulated, so a true value need not persist. -/
theorem stats_moved_flags_overwritten :
    ∀ (st : EnvState) (inp : EvalInput),
      ((evaluate st inp).1.episodeStats.moved_correct_obj ↔
        (evaluate st inp).2.moved_correct_obj) ∧
      ((evaluate st inp).1.episodeStats.moved_wrong_obj ↔
        (evaluate st inp).2.moved_wrong_obj) ∧
      ((evaluate st inp).1.episodeStats.moved_correct_obj ↔
        movedCorrectObj (xyDist inp.episodeSourceObjXyzAfterSettle inp.sourceObjPoseP)
          (otherObjXYMoveDist inp.episodeSourceObjName inp.episodeObjs)) ∧
      ((evaluate st inp).1.episodeStats.moved_wrong_obj ↔
        movedWrongObj (xyDist inp.episodeSourceObjXyzAfterSettle inp.sourceObjPoseP)
          (otherObjXYMoveDist inp.episodeSourceObjName inp.episodeObjs)) :=
  fun _ _ => ⟨Iff.rfl, Iff.rfl, Iff.rfl, Iff.rfl⟩

/-- Claim C8: the statistics update OR-accumulates `is_src_obj_grasped` and
`consecutive_grasp` with the per-step values (so once true they stay true
within the episode), while `src_on_target` is overwritten each step with the
instantaneous value and can return from true to false. -/
theorem stats_accumulation_spec :
    (∀ (st : EnvState) (inp : EvalInput),
        ((evaluate st inp).1.episodeStats.is_src_obj_grasped ↔
          st.episodeStats.is_src_obj_grasped ∨ (evaluate st inp).2.is_src_obj_grasped) ∧
        ((evaluate st inp).1.episodeStats.consecutive_grasp ↔
          st.episodeStats.consecutive_grasp ∨ (evaluate st inp).2.consecutive_grasp) ∧
        ((evaluate st inp).1.episodeStats.src_on_target ↔
          (evaluate st inp).2.src_on_target) ∧
        (st.episodeStats.is_src_obj_grasped →
          (evaluate st inp).1.episodeStats.is_src_obj_grasped) ∧
        (st.episodeStats.consecutive_grasp →
          (evaluate st inp).1.episodeStats.consecutive_grasp)) ∧
    (∃ (st : EnvState) (inp : EvalInput),
        st.episodeStats.src_on_target ∧
        ¬ (evaluate st inp).1.episodeStats.src_on_target) := by
  constructor
  · exact fun st inp => ⟨Iff.rfl, Iff.rfl, Iff.rfl, Or.inl, Or.inl⟩
  · refine ⟨⟨0, { initializeEpisodeStats with src_on_target := True }⟩,
      stepUnmovedInput, trivial, ?_⟩
    rintro ⟨⟨-, hz, -⟩, -⟩
    norm_num [stepUnmovedInput, vsub] at hz

/-- Witness for C8 at a concrete input: a previously recorded grasp stays
recorded after a step without a grasp. -/
theorem stats_accumulation_spec_witness :
    (evaluate ⟨0, { initializeEpisodeStats with is_src_obj_grasped := True }⟩
        stepUnmovedInput).1.episodeStats.is_src_obj_grasped :=
  (stats_accumulation_spec.1
      ⟨0, { initializeEpisodeStats with is_src_obj_grasped := True }⟩
      stepUnmovedInput).2.2.2.1 trivial

/-- Claim C9: after a reset the consecutive-grasp counter is 0 and all five
episode statistics are the freshly initialised all-false record, so nothing
from a previous episode remains observable. -/
theorem reset_spec :
    ∀ st : EnvState,
      (reset st).consecutiveGrasp = 0 ∧
      (reset st).episodeStats = initializeEpisodeStats ∧
      ¬ (reset st).episodeStats.moved_correct_obj ∧
      ¬ (reset st).episodeStats.moved_wrong_obj ∧
      ¬ (reset st).episodeStats.is_src_obj_grasped ∧
      ¬ (reset st).episodeStats.consecutive_grasp ∧
      ¬ (reset st).episodeStats.src_on_target :=
  fun _ => ⟨rfl, rfl, id, id, id, id, id⟩

open PutOnBridgeInScene

/-- Claim C10: the placement configuration chosen by
`PutOnBridgeInSceneEnv.reset` is a pure function of the episode id (taken from
the options with default 0): the quaternion index is `episode_id mod
len(quat_configs)`, the xy index is `(episode_id mod (len(xy_configs) *
len(quat_configs))) div len(quat_configs)`, and two episode ids congruent
modulo `len(xy_configs) * len(quat_configs)` select the same pair. -/
theorem bridge_reset_config_spec :
    (episodeId none = 0) ∧
    (∀ e : ℕ, episodeId (some e) = e) ∧
    (∀ (α β : Type) (xys : List α) (quats : List β) (e : ℕ),
        selectConfigs xys quats e =
          (xys.get? ((e % (xys.length * quats.length)) / quats.length),
           quats.get? (e % quats.length))) ∧
    (∀ (α β : Type) (xys : List α) (quats : List β) (e₁ e₂ : ℕ),
        e₁ % (xys.length * quats.length) = e₂ % (xys.length * quats.length) →
        selectConfigs xys quats e₁ = selectConfigs xys quats e₂) := by
  refine ⟨rfl, fun e => rfl, fun α β xys quats e => rfl, ?_⟩
  intro α β xys quats e₁ e₂ h
  unfold selectConfigs xyConfigIndex quatConfigIndex
  have hq : e₁ % quats.length = e₂ % quats.length := by
    have h1 := Nat.mod_mod_of_dvd e₁ (dvd_mul_left quats.length xys.length)
    have h2 := Nat.mod_mod_of_dvd e₂ (dvd_mul_left quats.length xys.length)
    rw [← h1, ← h2, h]
  rw [h, hq]

/-- Witness for C10 at concrete inputs: with 2 xy configurations and 3
quaternion configurations, episode ids 1 and 7 (congruent modulo 6) pick the
same pair. -/
theorem bridge_reset_config_spec_witness :
    selectConfigs [0, 1] [10, 20, 30] 1 = selectConfigs [0, 1] [10, 20, 30] 7 :=
  bridge_reset_config_spec.2.2.2 ℕ ℕ [0, 1] [10, 20, 30] 1 7 (by norm_num)
